import Mathlib

/-!
Shallow embedding of the gas_estimator crate (src/lib.rs): a minimal
JSON-RPC client for eth_estimateGas.

The embedding models the pure content of the two functions:

* send_rpc: builds the JsonRpcRequest envelope, performs one HTTP POST
  (abstracted here as a function from the request to the decoded response
  envelope), and resolves the decoded JsonRpcResponse into Ok/Err.
* estimate_gas: builds the parameter object from a Transaction, calls
  send_rpc with method eth_estimateGas, and parses the returned hex string
  into a 256-bit unsigned integer.

External crates are modelled from their sources/documentation:

* serde_json::Value is the Json inductive below; serde's derived
  deserializer maps a missing field or an explicit null to None for an
  Option field, so the envelope model takes the already-decoded Option
  fields.
* hex::encode produces two lowercase hex characters per byte.
* alloy_primitives::U256 is ruint's Uint<256, 4>. Its serde serialization
  (human-readable) is the 0x-prefixed minimal lowercase hex string.
  U256::from_str_radix with radix 16 uses the case-insensitive alphabet
  0-9/a-z (a digit value that is >= the radix is rejected as
  BaseConvertError::InvalidDigit), ignores underscores as digit
  separators, rejects other characters as ParseError::InvalidDigit, and
  rejects accumulated values >= 2^256 as BaseConvertError::Overflow. An
  empty digit sequence yields zero.
* alloy_primitives::Address renders via Display as the 0x-prefixed
  40-hex-character string (EIP-55 mixed-case checksumming of the hex
  digits, which requires keccak-256, is not reproduced here: the claims
  use the address string only as an abstract function of the 20 bytes).
* Box<dyn Error> is the BoxedError sum below: the program boxes exactly
  three kinds of error values: strings (the two .into() calls in
  send_rpc), ruint ParseError (the question-mark operator on
  from_str_radix in estimate_gas), and reqwest transport errors (the
  question-mark operators on send/json, left abstract).

256-bit integers are Nat (the parser's overflow check keeps results below
2^256); bytes are UInt8.
-/

namespace GasEstimator

/-- serde_json::Value. Object fields are kept as an association list in
the textual order of the json! literal; serde_json's map is a BTreeMap,
so the wire order is sorted, but no claim depends on field order. -/
inductive Json where
  | null : Json
  | bool (b : Bool) : Json
  | num (n : Int) : Json
  | str (s : String) : Json
  | arr (elems : List Json) : Json
  | obj (fields : List (String × Json)) : Json

/-- Field lookup in a JSON object. -/
def Json.lookup : Json → String → Option Json
  | .obj fields, key => List.lookup key fields
  | _, _ => none

/-- The keys of a JSON object, in order. -/
def Json.keys : Json → List String
  | .obj fields => fields.map Prod.fst
  | _ => []

/-- The JSON-RPC error object: code + message (lib.rs lines 34-38). -/
structure JsonRpcError where
  code : Int
  message : String

/-- The decoded JSON-RPC response envelope, generic over the result type
(lib.rs lines 28-32). serde's derived deserializer yields None for an
Option field that is missing or null, so a response whose result field is
JSON null decodes to result = none. -/
structure JsonRpcResponse (T : Type) where
  result : Option T
  error : Option JsonRpcError

/-- The JSON-RPC request envelope (lib.rs lines 20-26). The id is a u64;
the only value ever used is 1. -/
structure JsonRpcRequest where
  jsonrpc : String
  method : String
  params : List Json
  id : Nat

/-- Serde serialization of the derived Serialize on JsonRpcRequest:
a JSON object with the struct's fields in declaration order. -/
def JsonRpcRequest.toJson (r : JsonRpcRequest) : Json :=
  .obj [("jsonrpc", .str r.jsonrpc), ("method", .str r.method),
        ("params", .arr r.params), ("id", .num r.id)]

/-- ruint's ParseError, restricted to what radix 16 can produce:
InvalidDigit (a character outside the parse alphabet),
BaseConvertError::InvalidDigit (an alphabet character whose digit value
is >= 16, e.g. letters g-z), and BaseConvertError::Overflow. -/
inductive U256ParseError where
  | invalidDigit (c : Char) : U256ParseError
  | baseConvertInvalidDigit (d : Nat) : U256ParseError
  | overflow : U256ParseError

/-- The three kinds of error value the program ever boxes into
Box<dyn Error>: strings (via .into() in send_rpc), ruint parse errors
(propagated in estimate_gas), and reqwest transport errors (abstract). -/
inductive BoxedError where
  | msg (s : String) : BoxedError
  | parse (e : U256ParseError) : BoxedError
  | transport : BoxedError

/-- The resolution step of send_rpc (lib.rs lines 68-74): result first,
then error (formatted into the boxed string exactly as the source's
format string does), then the fixed unknown-error string. -/
def resolveResponse {T : Type} (response : JsonRpcResponse T) :
    Except BoxedError T :=
  match response.result with
  | some result => .ok result
  | none =>
    match response.error with
    | some error =>
      .error (.msg ("RPC Error: " ++ toString error.code ++ " - " ++ error.message))
    | none => .error (.msg "Unknown RPC Error")

/-- The request envelope construction in send_rpc (lib.rs lines 53-58). -/
def buildRequest (method : String) (params : List Json) : JsonRpcRequest :=
  { jsonrpc := "2.0", method := method, params := params, id := 1 }

/-- send_rpc (lib.rs lines 47-75). The HTTP POST round trip and the
deserialization of the body are abstracted as the node function from the
request to the decoded envelope; a transport or decode failure would
surface as BoxedError.transport before resolution, which no claim
exercises, so the model covers the runs that reach the envelope. -/
def send_rpc {T : Type} (node : JsonRpcRequest → JsonRpcResponse T)
    (method : String) (params : List Json) : Except BoxedError T :=
  resolveResponse (node (buildRequest method params))

/-- Lowercase-hex characters of a byte string, two per byte, high nibble
first: hex::encode as used in lib.rs line 102. Nat.digitChar renders
0-15 as the characters 0-9, a-f. -/
def hexEncodeChars : List UInt8 → List Char
  | [] => []
  | b :: bs =>
    Nat.digitChar (b.toNat / 16) :: Nat.digitChar (b.toNat % 16) :: hexEncodeChars bs

/-- hex::encode on a byte string. -/
def hexEncode (bs : List UInt8) : String := String.mk (hexEncodeChars bs)

/-- alloy_primitives::Address: a fixed array of 20 bytes. -/
structure Address where
  bytes : List UInt8
  length_eq : bytes.length = 20

/-- Address rendering via Display, used by to_string() in lib.rs lines
99-100: the 0x-prefixed 40-hex-character string of the 20 bytes. (alloy
additionally applies EIP-55 checksum casing, a keccak-256-derived
mixed-case variant of the same hex digits; the claims treat the address
string as an abstract function of the bytes, so the casing is not
reproduced.) -/
def Address.to_string (a : Address) : String := "0x" ++ hexEncode a.bytes

/-- The Transaction value object (lib.rs lines 78-90). 256-bit integers
are Nat values below 2^256; v is a u64. -/
structure Transaction where
  «from» : Address
  «to» : Address
  nonce : Nat
  gas_price : Option Nat
  gas_limit : Nat
  value : Nat
  data : List UInt8
  v : Nat
  r : Nat
  s : Nat

/-- serde serialization of a U256 (ruint, human-readable): the
0x-prefixed minimal lowercase hex string; zero renders as 0x0.
Nat.toDigits 16 gives exactly the minimal lowercase digits. -/
def u256ToJson (v : Nat) : Json := .str ("0x" ++ String.mk (Nat.toDigits 16 v))

/-- The parameter object built by estimate_gas (lib.rs lines 97-104):
the json! literal with exactly the fields from, to, value, data. -/
def estimateGasParams (tx : Transaction) : Json :=
  .obj [("from", .str tx.«from».to_string),
        ("to", .str tx.«to».to_string),
        ("value", u256ToJson tx.value),
        ("data", .str ("0x" ++ hexEncode tx.data))]

/-- The request estimate_gas hands to send_rpc (lib.rs line 106): method
eth_estimateGas, params the single parameter object. -/
def estimateGasRequest (tx : Transaction) : JsonRpcRequest :=
  buildRequest "eth_estimateGas" [estimateGasParams tx]

/-- str::trim_start_matches with the pattern 0x: repeatedly remove the
leading occurrence of 0x (lib.rs line 109). -/
def trimStart0x : List Char → List Char
  | '0' :: 'x' :: rest => trimStart0x rest
  | s => s

/-- Digit decoding of ruint's from_str_radix for radix <= 36: the
case-insensitive alphabet 0-9, a-z (underscores are handled by the
caller; any other character is ParseError::InvalidDigit). -/
def digitVal36 : Char → Option Nat
  | c =>
    if '0' ≤ c ∧ c ≤ '9' then some (c.toNat - '0'.toNat)
    else if 'a' ≤ c ∧ c ≤ 'z' then some (c.toNat - 'a'.toNat + 10)
    else if 'A' ≤ c ∧ c ≤ 'Z' then some (c.toNat - 'A'.toNat + 10)
    else none

/-- The accumulation loop of U256::from_str_radix(s, 16): characters are
consumed left to right; underscores are skipped; a character outside the
alphabet is ParseError::InvalidDigit; an alphabet character with digit
value >= 16 is BaseConvertError::InvalidDigit; the value is accumulated
base-16 with an overflow check against 2^256. The first failure in
stream order is returned. An empty digit sequence yields the
accumulator (zero at top level). -/
def fromStrRadix16Go : List Char → Nat → Except U256ParseError Nat
  | [], acc => .ok acc
  | c :: cs, acc =>
    if c = '_' then fromStrRadix16Go cs acc
    else
      match digitVal36 c with
      | none => .error (.invalidDigit c)
      | some d =>
        if d < 16 then
          if acc * 16 + d < 2 ^ 256 then fromStrRadix16Go cs (acc * 16 + d)
          else .error .overflow
        else .error (.baseConvertInvalidDigit d)

/-- U256::from_str_radix(s, 16). -/
def fromStrRadix16 (s : String) : Except U256ParseError Nat :=
  fromStrRadix16Go s.data 0

/-- Characters the radix-16 parser rejects: everything except an
underscore (skipped as a digit separator) and an alphabet character whose
digit value is below 16, i.e. 0-9, a-f, A-F. -/
def rejectedChar (c : Char) : Bool :=
  c != '_' &&
    match digitVal36 c with
    | none => true
    | some d => 16 ≤ d

/-- estimate_gas (lib.rs lines 92-112): build the parameter object, call
send_rpc expecting a String result, strip every leading 0x and parse the
remainder as base-16 into a U256; a ParseError is boxed by the
question-mark operator. -/
def estimate_gas (node : JsonRpcRequest → JsonRpcResponse String)
    (tx : Transaction) : Except BoxedError Nat :=
  match send_rpc node "eth_estimateGas" [estimateGasParams tx] with
  | .error e => .error e
  | .ok gas_estimate =>
    match fromStrRadix16 (String.mk (trimStart0x gas_estimate.data)) with
    | .ok value => .ok value
    | .error e => .error (.parse e)

/-- A 20-byte address with every byte 0x11, for concrete instances. -/
def addrA : Address := ⟨List.replicate 20 17, by decide⟩

/-- A concrete transaction with empty call data and value 1. -/
def txA : Transaction := ⟨addrA, addrA, 0, none, 0, 1, [], 0, 0, 0⟩

/-- A concrete transaction agreeing with txA on from, to, value and data
but differing in every field gas estimation ignores (the other field
values mirror the crate's own test). -/
def txB : Transaction :=
  ⟨addrA, addrA, 123, some 1000, 1000000000, 1, [], 777, 987654321, 121212⟩

/-- A concrete transaction with two bytes of call data. -/
def txC : Transaction := ⟨addrA, addrA, 0, none, 0, 1, [1, 255], 0, 0, 0⟩

/-- Helper: a protocol-error string never equals the unknown-error
string (their first characters differ). -/
theorem protocol_string_ne_unknown (x : String) :
    "RPC Error: " ++ x ≠ "Unknown RPC Error" := by
  intro h
  have h2 : (some 'R' : Option Char) = some 'U' :=
    congrArg (fun s => s.data.head?) h
  exact absurd h2 (by decide)

/-- Helper: characters produced by Nat.toDigitsCore come from the seed
list or are digit characters of values below the base. -/
theorem mem_toDigitsCore {b : Nat} (hb : 0 < b) :
    ∀ (fuel n : Nat) (ds : List Char) (c : Char),
      c ∈ Nat.toDigitsCore b fuel n ds →
      c ∈ ds ∨ ∃ m, m < b ∧ c = Nat.digitChar m := by
  intro fuel
  induction fuel with
  | zero => intro n ds c hc; exact Or.inl hc
  | succ fuel ih =>
    intro n ds c hc
    rw [Nat.toDigitsCore] at hc
    by_cases h0 : n / b = 0
    · simp only [h0, ite_true, List.mem_cons] at hc
      rcases hc with hc | hc
      · exact Or.inr ⟨n % b, Nat.mod_lt _ hb, hc⟩
      · exact Or.inl hc
    · simp only [h0, ite_false] at hc
      rcases ih _ _ _ hc with hc | hc
      · rcases List.mem_cons.mp hc with hc | hc
        · exact Or.inr ⟨n % b, Nat.mod_lt _ hb, hc⟩
        · exact Or.inl hc
      · exact Or.inr hc

/-- Helper: digit characters of values below 16 are lowercase hex. -/
theorem digitChar_mem_hexAlphabet {m : Nat} (hm : m < 16) :
    Nat.digitChar m ∈ "0123456789abcdef".data := by
  interval_cases m <;> decide

/-- Helper: the characters of a minimal base-16 rendering are lowercase
hex characters. -/
theorem toDigits16_mem_hexAlphabet (n : Nat) (c : Char)
    (hc : c ∈ Nat.toDigits 16 n) : c ∈ "0123456789abcdef".data := by
  rw [Nat.toDigits] at hc
  rcases mem_toDigitsCore (b := 16) (by norm_num) _ _ _ _ hc with hc | ⟨m, hm, rfl⟩
  · cases hc
  · exact digitChar_mem_hexAlphabet hm

/-- C1: send_rpc resolves every decoded response envelope in order:
a present result is returned as success; otherwise a present error fails
with the RPC-protocol-error value built from that error's code and
message; otherwise the call fails with the distinct unknown-RPC-error
value, which is never a success and differs from every protocol-error
value. -/
theorem send_rpc_resolution_order {T : Type}
    (node : JsonRpcRequest → JsonRpcResponse T) (method : String)
    (params : List Json) :
    (∀ v, (node (buildRequest method params)).result = some v →
      send_rpc node method params = .ok v)
    ∧ ((node (buildRequest method params)).result = none →
      ∀ e, (node (buildRequest method params)).error = some e →
        send_rpc node method params =
          .error (.msg ("RPC Error: " ++ toString e.code ++ " - " ++ e.message)))
    ∧ ((node (buildRequest method params)).result = none →
      (node (buildRequest method params)).error = none →
        send_rpc node method params = .error (.msg "Unknown RPC Error"))
    ∧ (∀ v : T, (Except.error (BoxedError.msg "Unknown RPC Error") :
        Except BoxedError T) ≠ .ok v)
    ∧ (∀ (code : Int) (message : String),
        BoxedError.msg "Unknown RPC Error" ≠
          .msg ("RPC Error: " ++ toString code ++ " - " ++ message)) := by
  refine ⟨?_, ?_, ?_, ?_, ?_⟩
  · intro v hv
    simp only [send_rpc, resolveResponse, hv]
  · intro hr e he
    simp only [send_rpc, resolveResponse, hr, he]
  · intro hr he
    simp only [send_rpc, resolveResponse, hr, he]
  · intro v h
    exact Except.noConfusion h
  · intro code message h
    injection h with h
    exact protocol_string_ne_unknown _ h.symm

/-- C1 witness: a response with neither field yields the unknown error. -/
theorem send_rpc_resolution_order_witness :
    send_rpc (fun _ => (⟨none, none⟩ : JsonRpcResponse Nat)) "eth_estimateGas" [] =
      .error (.msg "Unknown RPC Error") :=
  (send_rpc_resolution_order (fun _ => ⟨none, none⟩) "eth_estimateGas" []).2.2.1 rfl rfl

/-- C9: on an envelope carrying both a result and an error, send_rpc
deterministically prefers the result and returns it as success. -/
theorem send_rpc_prefers_result {T : Type}
    (node : JsonRpcRequest → JsonRpcResponse T) (method : String)
    (params : List Json) (v : T) (e : JsonRpcError)
    (h : node (buildRequest method params) = ⟨some v, some e⟩) :
    send_rpc node method params = .ok v := by
  simp only [send_rpc, resolveResponse, h]

/-- C9 witness: both fields present, the result value 7 is returned. -/
theorem send_rpc_prefers_result_witness :
    send_rpc (fun _ => (⟨some 7, some ⟨-1, "boom"⟩⟩ : JsonRpcResponse Nat))
      "eth_estimateGas" [] = .ok 7 :=
  send_rpc_prefers_result (fun _ => ⟨some 7, some ⟨-1, "boom"⟩⟩)
    "eth_estimateGas" [] 7 ⟨-1, "boom"⟩ rfl

/-- C4: send_rpc builds the envelope with the literal jsonrpc version
2.0, the given method, the given params in order, and the fixed id 1;
serde serializes it to the documented wire object; and the request sent
to the node is exactly that envelope. -/
theorem send_rpc_request_envelope (method : String) (params : List Json) :
    buildRequest method params =
      { jsonrpc := "2.0", method := method, params := params, id := 1 }
    ∧ (buildRequest method params).toJson =
      .obj [("jsonrpc", .str "2.0"), ("method", .str method),
            ("params", .arr params), ("id", .num 1)]
    ∧ ∀ (T : Type) (node : JsonRpcRequest → JsonRpcResponse T),
        send_rpc node method params =
          resolveResponse
            (node { jsonrpc := "2.0", method := method, params := params, id := 1 }) :=
  ⟨rfl, rfl, fun _ _ => rfl⟩

/-- Helper: hex encoding produces two characters per byte. -/
theorem hexEncodeChars_length (bs : List UInt8) :
    (hexEncodeChars bs).length = 2 * bs.length := by
  induction bs with
  | nil => rfl
  | cons b bs ih =>
    simp only [hexEncodeChars, List.length_cons, ih]
    omega

/-- Helper: hex encoding produces only lowercase hex characters. -/
theorem hexEncodeChars_mem_hexAlphabet (bs : List UInt8) (c : Char)
    (hc : c ∈ hexEncodeChars bs) : c ∈ "0123456789abcdef".data := by
  induction bs with
  | nil => cases hc
  | cons b bs ih =>
    simp only [hexEncodeChars, List.mem_cons] at hc
    rcases hc with rfl | rfl | hc
    · exact digitChar_mem_hexAlphabet
        (Nat.div_lt_of_lt_mul (Nat.lt_of_lt_of_le b.val.isLt (by norm_num)))
    · exact digitChar_mem_hexAlphabet (Nat.mod_lt _ (by norm_num))
    · exact ih hc

/-- Helper: with a string result present, estimate_gas returns the boxed
base-16 parse of the 0x-stripped remainder. -/
theorem estimate_gas_result_parse
    (node : JsonRpcRequest → JsonRpcResponse String) (tx : Transaction)
    (s : String) (hs : (node (estimateGasRequest tx)).result = some s) :
    estimate_gas node tx =
      match fromStrRadix16 (String.mk (trimStart0x s.data)) with
      | .ok v => .ok v
      | .error e => .error (.parse e) := by
  have hs2 : (node (buildRequest "eth_estimateGas" [estimateGasParams tx])).result
      = some s := hs
  simp only [estimate_gas, send_rpc, resolveResponse, hs2]

/-- C3: the parameter object estimate_gas builds carries exactly the
four fields from, to, value, data; the unused Transaction fields appear
nowhere; the object is the sole element of the params sequence; and the
request depends only on the from, to, value and data projections of the
transaction. -/
theorem estimate_gas_params_exact_fields (tx : Transaction) :
    (estimateGasParams tx).keys = ["from", "to", "value", "data"]
    ∧ "nonce" ∉ (estimateGasParams tx).keys
    ∧ "gas_price" ∉ (estimateGasParams tx).keys
    ∧ "gas_limit" ∉ (estimateGasParams tx).keys
    ∧ "v" ∉ (estimateGasParams tx).keys
    ∧ "r" ∉ (estimateGasParams tx).keys
    ∧ "s" ∉ (estimateGasParams tx).keys
    ∧ (estimateGasRequest tx).params = [estimateGasParams tx]
    ∧ ∀ tx2 : Transaction, tx.«from» = tx2.«from» → tx.«to» = tx2.«to» →
        tx.value = tx2.value → tx.data = tx2.data →
        estimateGasRequest tx = estimateGasRequest tx2 := by
  have hk : (estimateGasParams tx).keys = ["from", "to", "value", "data"] := rfl
  refine ⟨hk, ?_, ?_, ?_, ?_, ?_, ?_, rfl, ?_⟩
  · rw [hk]; decide
  · rw [hk]; decide
  · rw [hk]; decide
  · rw [hk]; decide
  · rw [hk]; decide
  · rw [hk]; decide
  · intro tx2 h1 h2 h3 h4
    simp only [estimateGasRequest, estimateGasParams, h1, h2, h3, h4]

/-- C3 witness: two transactions agreeing on from, to, value, data but
differing in nonce, gas_price, gas_limit, v, r, s produce the identical
request. -/
theorem estimate_gas_params_exact_fields_witness :
    estimateGasRequest txA = estimateGasRequest txB :=
  (estimate_gas_params_exact_fields txA).2.2.2.2.2.2.2.2 txB rfl rfl rfl rfl

/-- C2: when the node answers with a string result, estimate_gas returns
the base-16 parse of the prefix-stripped remainder as a 256-bit unsigned
integer; in particular the result 0x5208 yields 21000 for every
transaction. -/
theorem estimate_gas_parses_hex_result
    (node : JsonRpcRequest → JsonRpcResponse String) (tx : Transaction) :
    (∀ s, (node (estimateGasRequest tx)).result = some s →
      estimate_gas node tx =
        match fromStrRadix16 (String.mk (trimStart0x s.data)) with
        | .ok v => .ok v
        | .error e => .error (.parse e))
    ∧ ((node (estimateGasRequest tx)).result = some "0x5208" →
      estimate_gas node tx = .ok 21000) := by
  refine ⟨fun s hs => estimate_gas_result_parse node tx s hs, fun hs => ?_⟩
  rw [estimate_gas_result_parse node tx "0x5208" hs]
  rfl

/-- C2 witness: a stub node echoing 0x5208 makes estimate_gas return
21000 on a concrete transaction. -/
theorem estimate_gas_parses_hex_result_witness :
    estimate_gas (fun _ => ⟨some "0x5208", none⟩) txA = .ok 21000 :=
  (estimate_gas_parses_hex_result (fun _ => ⟨some "0x5208", none⟩) txA).2 rfl

/-- C7: the data field of the parameter object is the 0x-prefixed
lowercase hex string of tx.data; for every byte sequence the encoding is
0x-prefixed, has two hex characters per byte (even length), uses only
lowercase hex characters, and the empty sequence encodes to exactly 0x. -/
theorem estimate_gas_data_field_hex (tx : Transaction) :
    (estimateGasParams tx).lookup "data" = some (.str ("0x" ++ hexEncode tx.data))
    ∧ (∀ bs : List UInt8,
        ("0x" ++ hexEncode bs).data = '0' :: 'x' :: (hexEncode bs).data)
    ∧ (∀ bs : List UInt8, (hexEncode bs).length = 2 * bs.length)
    ∧ (∀ bs : List UInt8, ∀ c ∈ (hexEncode bs).data, c ∈ "0123456789abcdef".data)
    ∧ "0x" ++ hexEncode ([] : List UInt8) = "0x" := by
  refine ⟨rfl, fun bs => rfl, fun bs => hexEncodeChars_length bs,
    fun bs c hc => hexEncodeChars_mem_hexAlphabet bs c hc, rfl⟩

/-- C7 witness: the byte 0xff encodes to two characters, both lowercase
hex. -/
theorem estimate_gas_data_field_hex_witness :
    (hexEncode [(255 : UInt8)]).length = 2 * [(255 : UInt8)].length
    ∧ 'f' ∈ "0123456789abcdef".data :=
  ⟨(estimate_gas_data_field_hex txA).2.2.1 [255],
   (estimate_gas_data_field_hex txA).2.2.2.1 [255] 'f' (by decide)⟩

/-- C8: the value field of the parameter object is the serde
serialization of tx.value: a 0x-prefixed minimal lowercase hex string,
emitted with the same shape for every value and never a JSON number. -/
theorem estimate_gas_value_field_hex_string (tx : Transaction) :
    (estimateGasParams tx).lookup "value" = some (u256ToJson tx.value)
    ∧ u256ToJson tx.value = .str ("0x" ++ String.mk (Nat.toDigits 16 tx.value))
    ∧ (∀ v : Nat, ("0x" ++ String.mk (Nat.toDigits 16 v)).data =
        '0' :: 'x' :: Nat.toDigits 16 v)
    ∧ (∀ v : Nat, ∀ c ∈ Nat.toDigits 16 v, c ∈ "0123456789abcdef".data)
    ∧ (∀ (v : Nat) (n : Int), u256ToJson v ≠ .num n) := by
  refine ⟨rfl, rfl, fun v => rfl,
    fun v c hc => toDigits16_mem_hexAlphabet v c hc, fun v n h => ?_⟩
  exact Json.noConfusion h

/-- C8 witness: value 1 serializes to the string 0x1 in the parameter
object, and its hex body is a hex character. -/
theorem estimate_gas_value_field_hex_string_witness :
    (estimateGasParams txC).lookup "value" = some (.str "0x1")
    ∧ '1' ∈ "0123456789abcdef".data :=
  ⟨(estimate_gas_value_field_hex_string txC).1,
   (estimate_gas_value_field_hex_string txC).2.2.2.1 1 '1' (by decide)⟩

/-- Helper: decimal digit characters are never the space character. -/
theorem digitChar_ne_space {m : Nat} (hm : m < 10) : Nat.digitChar m ≠ ' ' := by
  interval_cases m <;> decide

/-- Helper: the decimal rendering of an integer contains no space. -/
theorem toString_int_no_space (i : Int) : ' ' ∉ (toString i).data := by
  intro hsp
  cases i with
  | ofNat m =>
    have h1 : ' ' ∈ Nat.toDigits 10 m := hsp
    rw [Nat.toDigits] at h1
    rcases mem_toDigitsCore (b := 10) (by norm_num) _ _ _ _ h1 with h | ⟨k, hk, he⟩
    · cases h
    · exact digitChar_ne_space hk he.symm
  | negSucc m =>
    have h1 : ' ' ∈ '-' :: Nat.toDigits 10 (m + 1) := hsp
    rcases List.mem_cons.mp h1 with h | h
    · exact absurd h (by decide)
    · rw [Nat.toDigits] at h
      rcases mem_toDigitsCore (b := 10) (by norm_num) _ _ _ _ h with h2 | ⟨k, hk, he⟩
      · cases h2
      · exact digitChar_ne_space hk he.symm

/-- Helper: a character list splits uniquely around its first space. -/
theorem space_split_inj :
    ∀ (l1 l2 r1 r2 : List Char), l1 ++ ' ' :: r1 = l2 ++ ' ' :: r2 →
      ' ' ∉ l1 → ' ' ∉ l2 → l1 = l2 ∧ r1 = r2 := by
  intro l1
  induction l1 with
  | nil =>
    intro l2 r1 r2 h h1 h2
    cases l2 with
    | nil =>
      simp only [List.nil_append, List.cons.injEq, true_and] at h
      exact ⟨rfl, h⟩
    | cons b bs =>
      simp only [List.nil_append, List.cons_append, List.cons.injEq] at h
      refine absurd ?_ h2
      rw [h.1]
      exact List.mem_cons_self b bs
  | cons a as ih =>
    intro l2 r1 r2 h h1 h2
    cases l2 with
    | nil =>
      simp only [List.cons_append, List.nil_append, List.cons.injEq] at h
      refine absurd ?_ h1
      rw [← h.1]
      exact List.mem_cons_self a as
    | cons b bs =>
      simp only [List.cons_append, List.cons.injEq] at h
      rcases h with ⟨rfl, h⟩
      have h1' : ' ' ∉ as := fun hm => h1 (List.mem_cons_of_mem _ hm)
      have h2' : ' ' ∉ bs := fun hm => h2 (List.mem_cons_of_mem _ hm)
      rcases ih bs r1 r2 h h1' h2' with ⟨rfl, rfl⟩
      exact ⟨rfl, rfl⟩

/-- Helper: strings with equal character lists are equal. -/
theorem string_eq_of_data {s t : String} (h : s.data = t.data) : s = t :=
  congrArg String.mk h

/-- Helper: the protocol-error string determines the rendered code and
the message exactly. -/
theorem rpcErrorString_inj (c1 c2 : Int) (m1 m2 : String)
    (h : "RPC Error: " ++ toString c1 ++ " - " ++ m1 =
         "RPC Error: " ++ toString c2 ++ " - " ++ m2) :
    toString c1 = toString c2 ∧ m1 = m2 := by
  have e1 : " - ".data = [' ', '-', ' '] := rfl
  have e2 : "RPC Error: ".data = ['R', 'P', 'C', ' ', 'E', 'r', 'r', 'o', 'r', ':', ' '] := rfl
  have h0 := congrArg String.data h
  simp only [String.data_append, e1, e2, List.append_assoc, List.cons_append,
    List.nil_append, List.cons.injEq, true_and] at h0
  rcases space_split_inj _ _ _ _ h0 (toString_int_no_space c1)
      (toString_int_no_space c2) with ⟨hcode, htail⟩
  simp only [List.cons.injEq, true_and] at htail
  exact ⟨string_eq_of_data hcode, string_eq_of_data htail⟩

/-- C5: a response with no result and a non-null error surfaces as the
RPC-protocol failure embedding the node's code (in decimal) and message
verbatim, the embedding determines the rendered code and the message
exactly (so callers can branch on node-specific codes), and in
particular the error code -32000 with message "insufficient funds"
surfaces with exactly that code and message. -/
theorem estimate_gas_protocol_error_verbatim
    (node : JsonRpcRequest → JsonRpcResponse String) (tx : Transaction) :
    ((node (estimateGasRequest tx)).result = none →
      ∀ e, (node (estimateGasRequest tx)).error = some e →
        estimate_gas node tx =
          .error (.msg ("RPC Error: " ++ toString e.code ++ " - " ++ e.message)))
    ∧ (∀ (c1 c2 : Int) (m1 m2 : String),
        BoxedError.msg ("RPC Error: " ++ toString c1 ++ " - " ++ m1) =
          .msg ("RPC Error: " ++ toString c2 ++ " - " ++ m2) →
        toString c1 = toString c2 ∧ m1 = m2)
    ∧ (node (estimateGasRequest tx) = ⟨none, some ⟨-32000, "insufficient funds"⟩⟩ →
      estimate_gas node tx =
        .error (.msg "RPC Error: -32000 - insufficient funds")) := by
  refine ⟨?_, ?_, ?_⟩
  · intro hr e he
    have hr2 : (node (buildRequest "eth_estimateGas" [estimateGasParams tx])).result
        = none := hr
    have he2 : (node (buildRequest "eth_estimateGas" [estimateGasParams tx])).error
        = some e := he
    simp only [estimate_gas, send_rpc, resolveResponse, hr2, he2]
  · intro c1 c2 m1 m2 h
    injection h with h
    exact rpcErrorString_inj c1 c2 m1 m2 h
  · intro h
    have h2 : node (buildRequest "eth_estimateGas" [estimateGasParams tx])
        = ⟨none, some ⟨-32000, "insufficient funds"⟩⟩ := h
    simp only [estimate_gas, send_rpc, resolveResponse, h2]
    rfl

/-- C5 witness: the stub error response surfaces with code -32000 and
the exact message. -/
theorem estimate_gas_protocol_error_verbatim_witness :
    estimate_gas (fun _ => ⟨none, some ⟨-32000, "insufficient funds"⟩⟩) txA =
      .error (.msg "RPC Error: -32000 - insufficient funds") :=
  (estimate_gas_protocol_error_verbatim
    (fun _ => ⟨none, some ⟨-32000, "insufficient funds"⟩⟩) txA).2.2 rfl

/-- Helper: a rejected character anywhere in the input makes the
radix-16 accumulation loop fail. -/
theorem fromStrRadix16Go_error_of_rejected :
    ∀ (l : List Char) (acc : Nat) (c : Char), c ∈ l → rejectedChar c = true →
      ∃ e, fromStrRadix16Go l acc = .error e := by
  intro l
  induction l with
  | nil => intro acc c hc _; cases hc
  | cons a l ih =>
    intro acc c hc hbad
    by_cases ha : a = '_'
    · subst ha
      have hc' : c ∈ l := by
        rcases List.mem_cons.mp hc with rfl | hc'
        · exfalso
          simp [rejectedChar] at hbad
        · exact hc'
      have hrec := ih acc c hc' hbad
      simpa [fromStrRadix16Go] using hrec
    · cases hd : digitVal36 a with
      | none =>
        exact ⟨.invalidDigit a, by simp [fromStrRadix16Go, ha, hd]⟩
      | some d =>
        by_cases hlt : d < 16
        · by_cases hov : acc * 16 + d < 2 ^ 256
          · have hc' : c ∈ l := by
              rcases List.mem_cons.mp hc with rfl | hc'
              · exfalso
                simp [rejectedChar, hd] at hbad
                omega
              · exact hc'
            obtain ⟨e, he⟩ := ih (acc * 16 + d) c hc' hbad
            refine ⟨e, ?_⟩
            simp only [fromStrRadix16Go, if_neg ha, hd]
            rw [if_pos hlt, if_pos hov]
            exact he
          · refine ⟨.overflow, ?_⟩
            simp only [fromStrRadix16Go, if_neg ha, hd]
            rw [if_pos hlt, if_neg hov]
        · exact ⟨.baseConvertInvalidDigit d, by simp [fromStrRadix16Go, ha, hd, hlt]⟩

/-- C6 (amended): for every result string whose 0x-stripped remainder
contains a character the parser rejects (anything other than a base-16
digit or an underscore, underscores being skipped as digit separators),
estimate_gas fails with a boxed parse error, an outcome distinct from
the string-carried RPC protocol and unknown errors and from transport
errors, and never a success value. (The original claim quantified over
every remainder that is not valid hexadecimal; a remainder that is empty
or made of underscores only is not valid hexadecimal yet parses as zero,
see the counterexample.) -/
theorem estimate_gas_rejected_char_encoding_error
    (node : JsonRpcRequest → JsonRpcResponse String) (tx : Transaction)
    (s : String) (c : Char)
    (hs : (node (estimateGasRequest tx)).result = some s)
    (hmem : c ∈ trimStart0x s.data) (hbad : rejectedChar c = true) :
    (∃ e, estimate_gas node tx = .error (.parse e))
    ∧ (∀ (e : U256ParseError) (m : String), BoxedError.parse e ≠ .msg m)
    ∧ (∀ e : U256ParseError, BoxedError.parse e ≠ .transport)
    ∧ (∀ v, estimate_gas node tx ≠ .ok v) := by
  obtain ⟨e, he⟩ := fromStrRadix16Go_error_of_rejected (trimStart0x s.data) 0 c hmem hbad
  have he2 : fromStrRadix16 (String.mk (trimStart0x s.data)) = .error e := he
  have hmain : estimate_gas node tx = .error (.parse e) := by
    rw [estimate_gas_result_parse node tx s hs, he2]
  refine ⟨⟨e, hmain⟩, fun e m h => BoxedError.noConfusion h,
    fun e h => BoxedError.noConfusion h, fun v h => ?_⟩
  rw [hmain] at h
  exact Except.noConfusion h

/-- C6 witness: the stub result not-a-hex-string fails with the boxed
parse failure (ruint rejects the digit value 23 of the letter n). -/
theorem estimate_gas_rejected_char_encoding_error_witness :
    (∃ e, estimate_gas (fun _ => ⟨some "not-a-hex-string", none⟩) txB =
      .error (.parse e))
    ∧ (∀ (e : U256ParseError) (m : String), BoxedError.parse e ≠ .msg m)
    ∧ (∀ e : U256ParseError, BoxedError.parse e ≠ .transport)
    ∧ (∀ v, estimate_gas (fun _ => ⟨some "not-a-hex-string", none⟩) txB ≠ .ok v) :=
  estimate_gas_rejected_char_encoding_error
    (fun _ => ⟨some "not-a-hex-string", none⟩) txB "not-a-hex-string" 'n'
    rfl (by decide) (by decide)

/-- C6 counterexample: the claim as stated fails on the code: the result
string 0x__ has a 0x-stripped remainder (two underscores) that is not
valid hexadecimal - it contains no hex digit at all - yet estimate_gas
silently returns zero instead of failing; likewise the result 0x, whose
stripped remainder is empty, returns zero. -/
theorem estimate_gas_nonhex_silent_zero :
    estimate_gas (fun _ => ⟨some "0x__", none⟩) txA = .ok 0
    ∧ "__".data.all (fun c => decide (c ∈ "0123456789abcdefABCDEF".data)) = false
    ∧ estimate_gas (fun _ => ⟨some "0x", none⟩) txA = .ok 0 :=
  ⟨rfl, by decide, rfl⟩

/-- C10: the stripping in estimate_gas removes every leading occurrence
of 0x, not just one, and parsing does not require the prefix: stripping
is invariant under one more leading 0x, leaves a string that does not
start with 0x unchanged, the returned value is the base-16 parse of the
fully stripped remainder, and the results 0x5208, 0x0x5208 and 5208 all
yield 21000. -/
theorem estimate_gas_strips_all_leading_0x
    (node : JsonRpcRequest → JsonRpcResponse String) (tx : Transaction) :
    (∀ s : List Char, trimStart0x ('0' :: 'x' :: s) = trimStart0x s)
    ∧ trimStart0x [] = []
    ∧ (∀ c, trimStart0x [c] = [c])
    ∧ (∀ (c1 c2 : Char) (s : List Char), ¬(c1 = '0' ∧ c2 = 'x') →
        trimStart0x (c1 :: c2 :: s) = c1 :: c2 :: s)
    ∧ (∀ s, (node (estimateGasRequest tx)).result = some s →
        estimate_gas node tx =
          match fromStrRadix16 (String.mk (trimStart0x s.data)) with
          | .ok v => .ok v
          | .error e => .error (.parse e))
    ∧ ((node (estimateGasRequest tx)).result = some "0x5208" →
        estimate_gas node tx = .ok 21000)
    ∧ ((node (estimateGasRequest tx)).result = some "0x0x5208" →
        estimate_gas node tx = .ok 21000)
    ∧ ((node (estimateGasRequest tx)).result = some "5208" →
        estimate_gas node tx = .ok 21000) := by
  refine ⟨fun s => rfl, rfl, ?_, ?_,
    fun s hs => estimate_gas_result_parse node tx s hs,
    fun hs => by rw [estimate_gas_result_parse node tx _ hs]; rfl,
    fun hs => by rw [estimate_gas_result_parse node tx _ hs]; rfl,
    fun hs => by rw [estimate_gas_result_parse node tx _ hs]; rfl⟩
  · intro c
    rw [trimStart0x.eq_def]
    split
    · rename_i heq
      injection heq with _ heq2
      exact List.noConfusion heq2
    · rfl
  · intro c1 c2 s h
    rw [trimStart0x.eq_def]
    split
    · rename_i heq
      injection heq with heq1 heq2
      injection heq2 with heq2 _
      exact absurd ⟨heq1, heq2⟩ h
    · rfl

/-- C10 witness: a stub node echoing 0x0x5208 still yields 21000. -/
theorem estimate_gas_strips_all_leading_0x_witness :
    estimate_gas (fun _ => ⟨some "0x0x5208", none⟩) txA = .ok 21000 :=
  (estimate_gas_strips_all_leading_0x
    (fun _ => ⟨some "0x0x5208", none⟩) txA).2.2.2.2.2.2.1 rfl

end GasEstimator
